import Mathlib

/-!
Shallow embedding of `src/rules/check-image-size.js` from
eslint-plugin-svg-size: an ESLint rule that parses an SVG file as XML and
reports embedded `data:image` images whose declared dimensions exceed the
root `<svg>` dimensions scaled by a configurable ratio.

Modelling conventions:
* XML documents are modelled as a tree of elements (`XmlNode`); the
  external XML parser (@xmldom/xmldom) is not part of the repository, so
  `checkSvgContent` receives a `ParseResult` describing the parser's
  outcome (an exception, or a document with an optional document element).
* JavaScript `parseInt(s, 10)` is modelled by `jsParseInt`: skip leading
  whitespace, optional sign, then the leading run of base-10 digits;
  `none` stands for `NaN`.
* JavaScript truthiness tests (`!svgWidth`, `!href`, `x || y`) are
  modelled explicitly: a number is falsy exactly when it is `0` or `NaN`,
  a string exactly when it is empty, an absent attribute is falsy.
* The configured ratio `maxSizeRatio` is a JavaScript number; it is
  modelled as a rational (`ℚ`), keeping the arithmetic of the comparisons
  exact.
-/

namespace SvgSize

/-- An XML element: tag name, attributes in document order, children. -/
inductive XmlNode where
  | element (name : String) (attrs : List (String × String)) (children : List XmlNode)

/-- Tag name of an element. -/
def XmlNode.name : XmlNode → String
  | .element n _ _ => n

/-- Attribute list of an element. -/
def XmlNode.attrs : XmlNode → List (String × String)
  | .element _ a _ => a

/-- Children of an element. -/
def XmlNode.children : XmlNode → List XmlNode
  | .element _ _ c => c

/-- DOM `getAttribute`: the value of the first attribute with the given
name, or `none` when the attribute is absent.  (xmldom returns a falsy
value — `null` or `''` — for an absent attribute; every use in the rule
only tests truthiness or runs `parseInt`, for which the two coincide.) -/
def getAttribute (attrName : String) (e : XmlNode) : Option String :=
  (e.attrs.find? (fun p => p.1 = attrName)).map Prod.snd

mutual

/-- Collect `e` itself (when its tag matches) and its matching
descendants, in document (pre-)order. -/
def collectByTagName (tag : String) (e : XmlNode) : List XmlNode :=
  match e with
  | .element n a cs =>
    (if n = tag then [XmlNode.element n a cs] else []) ++ collectListByTagName tag cs

/-- Collect matching elements of a forest, in document order. -/
def collectListByTagName (tag : String) (es : List XmlNode) : List XmlNode :=
  match es with
  | [] => []
  | c :: cs => collectByTagName tag c ++ collectListByTagName tag cs

end

/-- DOM `Element.getElementsByTagName`: all descendant elements with the
given tag name, in document order (the element itself is excluded, as in
xmldom's implementation). -/
def getElementsByTagName (tag : String) (e : XmlNode) : List XmlNode :=
  collectListByTagName tag e.children

/-- Numeric value of a run of decimal digit characters. -/
def digitsToNat (ds : List Char) : Nat :=
  ds.foldl (fun acc c => acc * 10 + (c.toNat - 48)) 0

/-- Sign handling of `parseInt`: a leading `-` selects sign `-1`, a
leading `+` sign `1`, otherwise sign `1` with nothing consumed. -/
def jsStripSign (cs : List Char) : Int × List Char :=
  match cs with
  | '-' :: r => (-1, r)
  | '+' :: r => (1, r)
  | _ => (1, cs)

/-- JavaScript `parseInt(s, 10)`: skip leading whitespace, read an
optional sign, then the leading run of base-10 digits; if that run is
empty the result is `NaN`, modelled as `none`. -/
def jsParseInt (s : String) : Option Int :=
  let signAndRest := jsStripSign (s.toList.dropWhile Char.isWhitespace)
  let ds := signAndRest.2.takeWhile Char.isDigit
  if ds.isEmpty then none else some (signAndRest.1 * (digitsToNat ds : Int))

/-- The expression `parseInt(element.getAttribute(name), 10)` followed by the rule's
truthiness test: the result is `some n` exactly when the attribute is
present and parses to a nonzero integer (`!parseInt(...)` in the source
is true for `NaN` and `0`, both modelled as `none` here). -/
def resolveDimension (attr : Option String) : Option Int :=
  match attr with
  | none => none
  | some s =>
    match jsParseInt s with
    | none => none
    | some n => if n = 0 then none else some n

/-- JavaScript `a || b` on attribute lookups: the first operand when it
is truthy (present and non-empty), otherwise the second. -/
def jsOrString (a b : Option String) : Option String :=
  match a with
  | some s => if s = "" then b else some s
  | none => b

/-- The expression `image.getAttribute('href') || image.getAttribute('xlink:href')`. -/
def resolveHref (e : XmlNode) : Option String :=
  jsOrString (getAttribute "href" e) (getAttribute "xlink:href" e)

/-- Truthiness test `!href` of the resolved reference: `some s` exactly when the resolved
reference is present and non-empty. -/
def hrefTruthy (h : Option String) : Option String :=
  match h with
  | some s => if s = "" then none else some s
  | none => none

/-- JavaScript `s.startsWith(pre)`, as used for the `data:image` prefix
test (case-sensitive, character by character). -/
def jsStartsWith (s pre : String) : Bool :=
  pre.toList.isPrefixOf s.toList

/-- A diagnostic reported by the rule (`messages` in `meta`), carrying
the data fields interpolated into the message template. -/
inductive Diagnostic where
  | invalidSvg (error : String)
  | missingSvgDimensions
  | oversizedImage (imageWidth imageHeight svgWidth svgHeight : Int)
      (filename : String)
deriving DecidableEq, Repr

/-- Outcome of `parseSvgContent` (the external XML parser): either the
parser threw (caught by the rule's `try`/`catch`) or it returned a
document whose `documentElement` may be absent. -/
inductive ParseResult where
  | threw (msg : String)
  | parsed (documentElement : Option XmlNode)

/-- The body of the per-image loop in `checkSvgContent` (lines 92–122):
resolve the image's width, height and reference; skip the image unless
all three are truthy; report `oversizedImage` when the reference starts
with `data:image` and either dimension strictly exceeds the scaled root
dimension. -/
def imageReport (filename : String) (maxSizeRatio : ℚ) (svgWidth svgHeight : Int)
    (image : XmlNode) : Option Diagnostic :=
  match resolveDimension (getAttribute "width" image),
        resolveDimension (getAttribute "height" image),
        hrefTruthy (resolveHref image) with
  | some imageWidth, some imageHeight, some href =>
    if jsStartsWith href "data:image" then
      if (imageWidth : ℚ) > (svgWidth : ℚ) * maxSizeRatio
          ∨ (imageHeight : ℚ) > (svgHeight : ℚ) * maxSizeRatio then
        some (.oversizedImage imageWidth imageHeight svgWidth svgHeight filename)
      else none
    else none
  | _, _, _ => none

/-- Function `checkSvgContent` (lines 66–130): report `invalidSvg` when the parser
threw or the document element is absent or not named `svg`; report
`missingSvgDimensions` when the root width or height is not truthy after
`parseInt`; otherwise scan every descendant `image` element in document
order. -/
def checkSvgContent (filename : String) (maxSizeRatio : ℚ)
    (parsed : ParseResult) : List Diagnostic :=
  match parsed with
  | .threw msg => [.invalidSvg msg]
  | .parsed none => [.invalidSvg "Not a valid SVG file"]
  | .parsed (some svg) =>
    if svg.name ≠ "svg" then [.invalidSvg "Not a valid SVG file"]
    else
      match resolveDimension (getAttribute "width" svg),
            resolveDimension (getAttribute "height" svg) with
      | some svgWidth, some svgHeight =>
        (getElementsByTagName "image" svg).filterMap
          (imageReport filename maxSizeRatio svgWidth svgHeight)
      | _, _ => [.missingSvgDimensions]

/-- JavaScript `ignorePath.replace('*', '.*')`: `String.prototype.replace`
with a string pattern replaces only the first occurrence. -/
def replaceFirstStar : List Char → List Char
  | [] => []
  | '*' :: rest => '.' :: '*' :: rest
  | c :: rest => c :: replaceFirstStar rest

/-- Whether a single regex atom (a literal character, or `.` matching
any character) matches a character. -/
def reAtomMatches (c x : Char) : Bool :=
  c == '.' || c == x

/-- The suffixes of `s` reachable by consuming zero or more characters
each matching the atom `c` (the states a starred atom `c*` can leave the
input in). -/
def starSuffixes (c : Char) : List Char → List (List Char)
  | [] => [[]]
  | x :: xs => (x :: xs) :: (if reAtomMatches c x then starSuffixes c xs else [])

/-- Matching of a regular expression (restricted to the constructs the
translated ignore patterns use: literal characters, `.`, and a postfix
`*` quantifier) against a prefix of the input. -/
def reMatchHere : List Char → List Char → Bool
  | [], _ => true
  | c :: '*' :: ps, s => (starSuffixes c s).any (fun s2 => reMatchHere ps s2)
  | c :: ps, s =>
    match s with
    | [] => false
    | x :: xs => reAtomMatches c x && reMatchHere ps xs

/-- JavaScript `RegExp.prototype.test`: unanchored search of the pattern anywhere in
the input. -/
def reSearch (p : List Char) (s : List Char) : Bool :=
  reMatchHere p s ||
    (match s with
     | [] => false
     | _ :: xs => reSearch p xs)

/-- Function `shouldIgnoreFile` (lines 53–59): the path, already made relative to
the working directory, is tested against each ignore pattern after its
first `*` is replaced by `.*`. -/
def shouldIgnoreFile (ignorePaths : List String) (relativePath : String) : Bool :=
  ignorePaths.any (fun ignorePath =>
    reSearch (replaceFirstStar ignorePath.toList) relativePath.toList)

/-- Function `checkSvgFile` (lines 132–147): return with no diagnostics when the
path matches an ignore pattern; otherwise read the file (a read failure
is reported as `invalidSvg` with the error's message) and check its
content.  The file read and the XML parse are external, so their outcome
is an argument. -/
def checkSvgFile (ignorePaths : List String) (relativePath : String)
    (maxSizeRatio : ℚ) (readResult : Except String ParseResult) : List Diagnostic :=
  if shouldIgnoreFile ignorePaths relativePath then []
  else
    match readResult with
    | .error msg => [.invalidSvg msg]
    | .ok parsed => checkSvgContent relativePath maxSizeRatio parsed

/-- The expression `options.maxSizeRatio || 2` (line 50): a falsy configured ratio (for
`ℚ` the only falsy value is `0`; JavaScript additionally has `-0` and
`NaN`, which `ℚ` does not distinguish or contain) is replaced by the
default `2`, as is an absent option. -/
def resolveMaxSizeRatio (opt : Option ℚ) : ℚ :=
  match opt with
  | none => 2
  | some r => if r = 0 then 2 else r

/-- Modelled from the spec: the XML parser (@xmldom/xmldom) is an
external dependency, not part of this repository's `src/`.  Per the spec,
an empty or whitespace-only input is a parse failure, not a vacuously
valid document: the parser produces no document element for any such
input, so the parse result is a document with an absent
`documentElement`. -/
def parseOfWhitespaceInput (_content : String) : ParseResult :=
  .parsed none

/-! Concrete documents used to instantiate the theorems below. -/

/-- An embedded image of declared size 300×300. -/
def imgOversized : XmlNode :=
  .element "image"
    [("width", "300"), ("height", "300"), ("href", "data:image/png;base64,AA==")] []

/-- An embedded image of declared size 150×150. -/
def imgCompliant : XmlNode :=
  .element "image"
    [("width", "150"), ("height", "150"), ("href", "data:image/png;base64,AA==")] []

/-- An image with an external (non-`data:image`) reference. -/
def imgExternal : XmlNode :=
  .element "image"
    [("width", "900"), ("height", "900"), ("href", "http://example.com/a.png")] []

/-- A tall embedded image, 50×999, referenced through `xlink:href`. -/
def imgTall : XmlNode :=
  .element "image"
    [("width", "50"), ("height", "999"), ("xlink:href", "data:image/gif;base64,AA==")] []

/-- A root `svg` element whose `width` attribute is the negative value
`"-5"`. -/
def svgNegWidthRoot : XmlNode :=
  .element "svg" [("width", "-5"), ("height", "100")] []

/-- A root `svg` element with `width="-1"` containing a 500×500 embedded
image. -/
def svgNegWidthRootWithImage : XmlNode :=
  .element "svg" [("width", "-1"), ("height", "100")]
    [.element "image"
      [("width", "500"), ("height", "500"), ("href", "data:image/png;base64,AA==")] []]

/-- A root `svg` element lacking a `width` attribute, containing an
oversized embedded image. -/
def svgNoWidthRoot : XmlNode :=
  .element "svg" [("height", "100")] [imgOversized]

/-- A 100×100 root containing two oversized embedded images, one
compliant image and one external image. -/
def svgTwoOversized : XmlNode :=
  .element "svg" [("width", "100"), ("height", "100")]
    [imgOversized, imgCompliant, imgTall, imgExternal]

/-- A well-formed document whose root element is `html`, not `svg`. -/
def htmlRoot : XmlNode :=
  .element "html" [] [imgOversized]

/-! Helper lemmas shared by several of the claim theorems. -/

/-- Generic list fact used for `parseInt` semantics: `takeWhile` over a
run that wholly satisfies the predicate, followed by a remainder whose
first element does not, returns exactly the run. -/
theorem takeWhile_all_append (p : Char → Bool) (ds rest : List Char)
    (h1 : ∀ c ∈ ds, p c = true)
    (h2 : ∀ c, rest.head? = some c → p c = false) :
    (ds ++ rest).takeWhile p = ds := by
  induction ds with
  | nil =>
    simp only [List.nil_append]
    cases rest with
    | nil => rfl
    | cons x xs =>
      have := h2 x rfl
      simp [List.takeWhile_cons, this]
  | cons d ds ih =>
    have hd : p d = true := h1 d (by simp)
    simp only [List.cons_append, List.takeWhile_cons, hd]
    simp [ih (fun c hc => h1 c (by simp [hc]))]

/-- A diagnostic produced by the per-image loop is always an
`oversizedImage` diagnostic for an image whose resolved width, height and
truthy `data:image` reference witness a strict excess over the scaled
root dimensions. -/
theorem imageReport_eq_some_iff (fn : String) (k : ℚ) (W H : Int)
    (img : XmlNode) (d : Diagnostic) :
    imageReport fn k W H img = some d ↔
      ∃ w h r, resolveDimension (getAttribute "width" img) = some w ∧
        resolveDimension (getAttribute "height" img) = some h ∧
        hrefTruthy (resolveHref img) = some r ∧
        jsStartsWith r "data:image" = true ∧
        ((w : ℚ) > (W : ℚ) * k ∨ (h : ℚ) > (H : ℚ) * k) ∧
        d = Diagnostic.oversizedImage w h W H fn := by
  constructor
  · intro hsome
    unfold imageReport at hsome
    split at hsome
    · rename_i w h r hw hh hr
      split at hsome
      · rename_i hpre
        split at hsome
        · rename_i hgt
          exact ⟨w, h, r, hw, hh, hr, hpre, hgt,
            (Option.some.inj hsome).symm⟩
        · exact absurd hsome (by simp)
      · exact absurd hsome (by simp)
    · exact absurd hsome (by simp)
  · rintro ⟨w, h, r, hw, hh, hr, hpre, hgt, rfl⟩
    unfold imageReport
    rw [hw, hh, hr]
    simp [hpre, hgt]

/-- Unfolding of `checkSvgContent` when the root is named `svg` and both
root dimensions are truthy: the result is the per-image scan in document
order. -/
theorem checkSvgContent_of_resolved (fn : String) (k : ℚ) (svg : XmlNode)
    (W H : Int) (hname : svg.name = "svg")
    (hW : resolveDimension (getAttribute "width" svg) = some W)
    (hH : resolveDimension (getAttribute "height" svg) = some H) :
    checkSvgContent fn k (ParseResult.parsed (some svg)) =
      (getElementsByTagName "image" svg).filterMap (imageReport fn k W H) := by
  simp only [checkSvgContent]
  rw [if_neg (by simp [hname]), hW, hH]

/-- Unfolding of `checkSvgContent` when the root is named `svg` but a
root dimension is not truthy: the single `missingSvgDimensions`
diagnostic is reported and nothing else runs. -/
theorem checkSvgContent_of_unresolved (fn : String) (k : ℚ) (svg : XmlNode)
    (hname : svg.name = "svg")
    (h : resolveDimension (getAttribute "width" svg) = none ∨
         resolveDimension (getAttribute "height" svg) = none) :
    checkSvgContent fn k (ParseResult.parsed (some svg)) =
      [Diagnostic.missingSvgDimensions] := by
  simp only [checkSvgContent]
  rw [if_neg (by simp [hname])]
  rcases h with h | h
  · rw [h]
  · rw [h]
    rcases resolveDimension (getAttribute "width" svg) with _ | w <;> rfl

/-- A decimal digit character is not whitespace. -/
theorem isDigit_not_isWhitespace (c : Char) (h : c.isDigit = true) :
    c.isWhitespace = false := by
  by_contra hws
  rw [Bool.not_eq_false] at hws
  simp [Char.isWhitespace] at hws
  rcases hws with ((h1 | h1) | h1) | h1 <;> subst h1 <;>
    exact absurd h (by decide)

/-- Sign stripping leaves a digit-headed list untouched with sign `1`. -/
theorem jsStripSign_of_digit (d : Char) (t : List Char)
    (hd : d.isDigit = true) :
    jsStripSign (d :: t) = (1, d :: t) := by
  unfold jsStripSign
  split
  · rename_i r heq
    injection heq with h1 _
    subst h1
    exact absurd hd (by decide)
  · rename_i r heq
    injection heq with h1 _
    subst h1
    exact absurd hd (by decide)
  · rfl

/-! Claim theorems. -/

/-- C1: for a validated SVG whose root resolves to positive dimensions
`W×H` with ratio `k`, an embedded `data:image` image whose dimensions
resolve to positive `w×h` produces an `oversizedImage` diagnostic if and
only if `w > W*k` or `h > H*k`; the inequalities are strict, so an image
measuring exactly `W*k` (or `H*k`) produces no diagnostic. -/
theorem c1_oversize_iff_strict (fn : String) (k : ℚ) (W H w h : Int)
    (r : String) (img : XmlNode)
    (_hW : 0 < W) (_hH : 0 < H) (_hk : 0 < k)
    (hw : resolveDimension (getAttribute "width" img) = some w) (_hw0 : 0 < w)
    (hh : resolveDimension (getAttribute "height" img) = some h) (_hh0 : 0 < h)
    (hr : hrefTruthy (resolveHref img) = some r)
    (hdata : jsStartsWith r "data:image" = true) :
    (imageReport fn k W H img).isSome = true ↔
      ((w : ℚ) > (W : ℚ) * k ∨ (h : ℚ) > (H : ℚ) * k) := by
  simp only [imageReport, hw, hh, hr]
  rw [if_pos hdata]
  split <;> simp_all

/-- C1 witness: for a 100×100 root with ratio 2, the concrete 300×300
embedded image instantiates the oversize equivalence. -/
theorem c1_oversize_iff_strict_witness :
    (imageReport "a.svg" 2 100 100 imgOversized).isSome = true ↔
      ((300 : ℚ) > (100 : ℚ) * 2 ∨ (300 : ℚ) > (100 : ℚ) * 2) :=
  c1_oversize_iff_strict "a.svg" 2 100 100 300 300
    "data:image/png;base64,AA==" imgOversized
    (by norm_num) (by norm_num) (by norm_num)
    (by decide) (by norm_num) (by decide) (by norm_num)
    (by decide) (by decide)

/-- C4: the reference of an `image` element is read from `href` with a
fallback to `xlink:href` (the fallback applies when `href` is absent; a
present non-empty `href` wins), and an element whose resolved reference
is absent/empty or does not start with the literal, case-sensitive
prefix `data:image` never produces any diagnostic, regardless of its
dimensions. -/
theorem c4_reference_recognizer (fn : String) (k : ℚ) (W H : Int)
    (img : XmlNode) :
    (getAttribute "href" img = none →
      resolveHref img = getAttribute "xlink:href" img) ∧
    (∀ s, getAttribute "href" img = some s → s ≠ "" →
      resolveHref img = some s) ∧
    ((hrefTruthy (resolveHref img) = none ∨
        ∃ r, hrefTruthy (resolveHref img) = some r ∧
          jsStartsWith r "data:image" = false) →
      imageReport fn k W H img = none) := by
  refine ⟨?_, ?_, ?_⟩
  · intro h
    simp [resolveHref, jsOrString, h]
  · intro s h hs
    simp [resolveHref, jsOrString, h, hs]
  · intro hcase
    by_contra hne
    obtain ⟨d, hd⟩ := Option.ne_none_iff_exists'.mp hne
    obtain ⟨w, hgt, r, _, _, hr, hpre, _, _⟩ :=
      (imageReport_eq_some_iff fn k W H img d).mp hd
    rcases hcase with hnone | ⟨r', hr', hfalse⟩
    · rw [hnone] at hr
      exact Option.noConfusion hr
    · rw [hr'] at hr
      cases Option.some.inj hr
      simp_all

/-- C4 witness: the concrete external-reference image (whose reference
does not start with `data:image`) produces no diagnostic although its
declared 900×900 dimensions far exceed a 100×100 root at ratio 2. -/
theorem c4_reference_recognizer_witness :
    imageReport "f.svg" 2 100 100 imgExternal = none :=
  (c4_reference_recognizer "f.svg" 2 100 100 imgExternal).2.2
    (Or.inr ⟨"http://example.com/a.png", by decide, by decide⟩)

/-- C2 counterexample: the negative attribute value `"-5"` parses to the
truthy integer `-5`, so a root element with `width="-5"` is treated as
resolved: the rule emits no `missingSvgDimensions` diagnostic (the
output is empty), contradicting the claim that negative values resolve
to "unresolved" and such a root yields `missingSvgDimensions`. -/
theorem c2_counterexample :
    jsParseInt "-5" = some (-5) ∧
    checkSvgContent "f.svg" 2 (ParseResult.parsed (some svgNegWidthRoot)) = [] ∧
    Diagnostic.missingSvgDimensions ∉
      checkSvgContent "f.svg" 2 (ParseResult.parsed (some svgNegWidthRoot)) := by
  refine ⟨by decide, by decide, by decide⟩

/-- C2 (amended): a width or height attribute value that is non-numeric,
empty, zero, or missing resolves to "unresolved", and a root element
yields a `missingSvgDimensions` diagnostic exactly when one of its two
dimensions is unresolved; a negative value, however, parses to a
(truthy) negative integer and is treated as resolved, so a root with a
negative width or height yields no `missingSvgDimensions` diagnostic. -/
theorem c2_amended_unresolved_iff (fn : String) (maxSizeRatio : ℚ)
    (svg : XmlNode) (hname : svg.name = "svg") :
    (Diagnostic.missingSvgDimensions ∈
        checkSvgContent fn maxSizeRatio (ParseResult.parsed (some svg)) ↔
      resolveDimension (getAttribute "width" svg) = none ∨
      resolveDimension (getAttribute "height" svg) = none) ∧
    (∀ s n, jsParseInt s = some n → n ≠ 0 →
      resolveDimension (some s) = some n) := by
  constructor
  · constructor
    · intro hmem
      by_contra hc
      push_neg at hc
      obtain ⟨hW', hH'⟩ := hc
      obtain ⟨W, hW⟩ := Option.ne_none_iff_exists'.mp hW'
      obtain ⟨H, hH⟩ := Option.ne_none_iff_exists'.mp hH'
      rw [checkSvgContent_of_resolved fn maxSizeRatio svg W H hname hW hH] at hmem
      obtain ⟨img, _, himg⟩ := List.mem_filterMap.mp hmem
      obtain ⟨w, h, r, _, _, _, _, _, hd⟩ :=
        (imageReport_eq_some_iff fn maxSizeRatio W H img _).mp himg
      exact absurd hd (by simp)
    · intro h
      rw [checkSvgContent_of_unresolved fn maxSizeRatio svg hname h]
      simp
  · intro s n hp hn
    simp [resolveDimension, hp, hn]

/-- C2 (amended) witness: for the concrete root lacking a `width`
attribute the `missingSvgDimensions` characterization holds. -/
theorem c2_amended_unresolved_iff_witness :
    Diagnostic.missingSvgDimensions ∈
        checkSvgContent "f.svg" 2 (ParseResult.parsed (some svgNoWidthRoot)) ↔
      resolveDimension (getAttribute "width" svgNoWidthRoot) = none ∨
      resolveDimension (getAttribute "height" svgNoWidthRoot) = none :=
  (c2_amended_unresolved_iff "f.svg" 2 svgNoWidthRoot (by decide)).1

/-- C3 counterexample: with root `width="-1"` (which does not resolve to
a positive integer) and a 500×500 embedded image, the rule emits zero
`missingSvgDimensions` diagnostics and one `oversizedImage` diagnostic:
the per-image scan does run, contradicting the claim. -/
theorem c3_counterexample :
    checkSvgContent "f.svg" 2
        (ParseResult.parsed (some svgNegWidthRootWithImage)) =
      [Diagnostic.oversizedImage 500 500 (-1) 100 "f.svg"] ∧
    Diagnostic.missingSvgDimensions ∉
      checkSvgContent "f.svg" 2
        (ParseResult.parsed (some svgNegWidthRootWithImage)) := by
  have h1 : checkSvgContent "f.svg" 2
      (ParseResult.parsed (some svgNegWidthRootWithImage)) =
      [Diagnostic.oversizedImage 500 500 (-1) 100 "f.svg"] := by
    simp [checkSvgContent, svgNegWidthRootWithImage, imageReport,
      resolveDimension, getAttribute, jsParseInt, jsStripSign, digitsToNat, resolveHref,
      jsOrString, hrefTruthy, XmlNode.attrs, XmlNode.name, XmlNode.children,
      getElementsByTagName, collectListByTagName, collectByTagName,
      List.find?, List.filterMap, jsStartsWith]
    norm_num
  exact ⟨h1, by rw [h1]; decide⟩

/-- C3 (amended): a root dimension that is missing or parses to `NaN` or
`0` (the values the code's truthiness test rejects) yields exactly one
`missingSvgDimensions` diagnostic and zero `oversizedImage` diagnostics,
even when the document contains embedded images exceeding the ratio: the
per-image scan never runs in that case.  (A negative root dimension,
being truthy, does not terminate the scan.) -/
theorem c3_amended_unresolved_terminates (fn : String) (maxSizeRatio : ℚ)
    (svg : XmlNode) (hname : svg.name = "svg")
    (h : resolveDimension (getAttribute "width" svg) = none ∨
         resolveDimension (getAttribute "height" svg) = none) :
    checkSvgContent fn maxSizeRatio (ParseResult.parsed (some svg)) =
      [Diagnostic.missingSvgDimensions] :=
  checkSvgContent_of_unresolved fn maxSizeRatio svg hname h

/-- C3 (amended) witness: a root lacking `width` but containing an
oversized embedded image yields exactly the one `missingSvgDimensions`
diagnostic. -/
theorem c3_amended_unresolved_terminates_witness :
    checkSvgContent "f.svg" 2 (ParseResult.parsed (some svgNoWidthRoot)) =
      [Diagnostic.missingSvgDimensions] :=
  c3_amended_unresolved_terminates "f.svg" 2 svgNoWidthRoot (by decide)
    (Or.inl (by decide))

/-- C7: for every attribute value whose leading characters are a
non-empty run of base-10 digits followed by non-numeric characters
(e.g. `"100px"`), `parseInt` accepts the value and yields the integer
given by the leading numeric run, discarding the suffix without error:
the result equals the parse of the digit run alone. -/
theorem c7_leading_numeric_run (ds rest : List Char)
    (hne : ds ≠ [])
    (hdig : ∀ c ∈ ds, c.isDigit = true)
    (hrest : ∀ c, rest.head? = some c → c.isDigit = false) :
    jsParseInt (String.mk (ds ++ rest)) = some ((digitsToNat ds : Int)) ∧
    jsParseInt (String.mk (ds ++ rest)) = jsParseInt (String.mk ds) := by
  obtain ⟨d, ds', rfl⟩ : ∃ d ds', ds = d :: ds' := by
    cases ds with
    | nil => exact absurd rfl hne
    | cons a b => exact ⟨a, b, rfl⟩
  have hd : d.isDigit = true := hdig d (List.mem_cons_self d ds')
  have hdws : d.isWhitespace = false := isDigit_not_isWhitespace d hd
  have main : ∀ (tail : List Char),
      (∀ c, tail.head? = some c → c.isDigit = false) →
      jsParseInt (String.mk ((d :: ds') ++ tail)) =
        some ((digitsToNat (d :: ds') : Int)) := by
    intro tail htail
    have h1 : (String.mk ((d :: ds') ++ tail)).toList = d :: (ds' ++ tail) := rfl
    have h2 : (d :: (ds' ++ tail)).dropWhile Char.isWhitespace =
        d :: (ds' ++ tail) := by
      simp [List.dropWhile_cons, hdws]
    have h3 : jsStripSign (d :: (ds' ++ tail)) = (1, d :: (ds' ++ tail)) :=
      jsStripSign_of_digit d _ hd
    have h4 : (d :: (ds' ++ tail)).takeWhile Char.isDigit = d :: ds' := by
      have := takeWhile_all_append Char.isDigit (d :: ds') tail hdig htail
      simpa using this
    simp only [jsParseInt, h1, h2, h3]
    simp [h4]
  refine ⟨main rest hrest, ?_⟩
  rw [main rest hrest]
  have h0 := main [] (by intro c hc; simp at hc)
  simpa using h0.symm

/-- C7 witness: the value `"100px"` parses to `100`, the same result as
parsing `"100"` alone. -/
theorem c7_leading_numeric_run_witness :
    jsParseInt (String.mk (['1', '0', '0'] ++ ['p', 'x'])) =
      some ((digitsToNat ['1', '0', '0'] : Int)) ∧
    jsParseInt (String.mk (['1', '0', '0'] ++ ['p', 'x'])) =
      jsParseInt (String.mk ['1', '0', '0']) :=
  c7_leading_numeric_run ['1', '0', '0'] ['p', 'x'] (by decide) (by decide)
    (by intro c hc; simp [List.head?] at hc; subst hc; decide)

/-- C8: for a document with resolved root dimensions, the diagnostics
are exactly one `oversizedImage` per offending image, produced by the
per-image check over the document-order image list (`filterMap`), and
every emitted diagnostic corresponds to an image whose resolved width or
height strictly exceeds the scaled root dimension. -/
theorem c8_one_diagnostic_per_offending_image (fn : String) (k : ℚ)
    (W H : Int) (svg : XmlNode) (hname : svg.name = "svg")
    (hW : resolveDimension (getAttribute "width" svg) = some W)
    (hH : resolveDimension (getAttribute "height" svg) = some H) :
    checkSvgContent fn k (ParseResult.parsed (some svg)) =
      (getElementsByTagName "image" svg).filterMap (imageReport fn k W H) ∧
    ∀ d ∈ checkSvgContent fn k (ParseResult.parsed (some svg)),
      ∃ img ∈ getElementsByTagName "image" svg,
        imageReport fn k W H img = some d ∧
        ∃ w h r, resolveDimension (getAttribute "width" img) = some w ∧
          resolveDimension (getAttribute "height" img) = some h ∧
          hrefTruthy (resolveHref img) = some r ∧
          jsStartsWith r "data:image" = true ∧
          ((w : ℚ) > (W : ℚ) * k ∨ (h : ℚ) > (H : ℚ) * k) ∧
          d = Diagnostic.oversizedImage w h W H fn := by
  have heq := checkSvgContent_of_resolved fn k svg W H hname hW hH
  refine ⟨heq, ?_⟩
  intro d hd
  rw [heq] at hd
  obtain ⟨img, himg, hrep⟩ := List.mem_filterMap.mp hd
  exact ⟨img, himg, hrep, (imageReport_eq_some_iff fn k W H img d).mp hrep⟩

/-- C8 witness: the 100×100 document holding two oversized, one
compliant and one external image reduces to the per-image scan of its
document-order image list. -/
theorem c8_one_diagnostic_per_offending_image_witness :
    checkSvgContent "a.svg" 2 (ParseResult.parsed (some svgTwoOversized)) =
      (getElementsByTagName "image" svgTwoOversized).filterMap
        (imageReport "a.svg" 2 100 100) :=
  (c8_one_diagnostic_per_offending_image "a.svg" 2 100 100 svgTwoOversized
    (by decide) (by decide) (by decide)).1

/-- C5: for every file whose relative path matches at least one
configured ignore pattern (first `*` translated to `.*`, unanchored regex
test), the rule produces zero diagnostics of any kind, whatever the read
and parse outcome would have been: the parser, resolver and checker are
never invoked. -/
theorem c5_ignored_file_no_diagnostics (ignorePaths : List String)
    (relativePath : String) (maxSizeRatio : ℚ)
    (readResult : Except String ParseResult)
    (h : shouldIgnoreFile ignorePaths relativePath = true) :
    checkSvgFile ignorePaths relativePath maxSizeRatio readResult = [] := by
  unfold checkSvgFile
  rw [h]
  rfl

/-- C5 witness: `dist/a.svg` matches the ignore pattern `dist/*`, so even
a file whose content holds two oversized embedded images yields no
diagnostics. -/
theorem c5_ignored_file_no_diagnostics_witness :
    checkSvgFile ["dist/*"] "dist/a.svg" 2
      (Except.ok (ParseResult.parsed (some svgTwoOversized))) = [] :=
  c5_ignored_file_no_diagnostics ["dist/*"] "dist/a.svg" 2
    (Except.ok (ParseResult.parsed (some svgTwoOversized))) (by decide)

/-- C6: for every well-formed document whose root element is not named
exactly `svg`, the rule reports exactly one `invalidSvg` diagnostic with
the fixed message data `"Not a valid SVG file"` (not a parser-produced
message) and nothing else. -/
theorem c6_non_svg_root_invalid (fn : String) (maxSizeRatio : ℚ)
    (root : XmlNode) (h : root.name ≠ "svg") :
    checkSvgContent fn maxSizeRatio (ParseResult.parsed (some root)) =
      [Diagnostic.invalidSvg "Not a valid SVG file"] := by
  simp only [checkSvgContent]
  rw [if_pos h]

/-- C6 witness: a document rooted at `html` (containing an oversized
image) yields exactly the fixed `invalidSvg` diagnostic. -/
theorem c6_non_svg_root_invalid_witness :
    checkSvgContent "f.svg" 2 (ParseResult.parsed (some htmlRoot)) =
      [Diagnostic.invalidSvg "Not a valid SVG file"] :=
  c6_non_svg_root_invalid "f.svg" 2 htmlRoot (by decide)

/-- C9: for every empty or whitespace-only input, the (spec-modelled)
parse yields no document element, so the rule reports an `invalidSvg`
diagnostic — the input is never accepted as a vacuously valid document
with zero diagnostics. -/
theorem c9_whitespace_input_invalid (fn content : String) (maxSizeRatio : ℚ)
    (_h : content.toList.all Char.isWhitespace = true) :
    checkSvgContent fn maxSizeRatio (parseOfWhitespaceInput content) =
      [Diagnostic.invalidSvg "Not a valid SVG file"] :=
  rfl

/-- C9 witness: the empty input is reported as `invalidSvg`. -/
theorem c9_whitespace_input_invalid_witness :
    checkSvgContent "f.svg" 2 (parseOfWhitespaceInput "") =
      [Diagnostic.invalidSvg "Not a valid SVG file"] :=
  c9_whitespace_input_invalid "f.svg" "" 2 (by decide)

/-- C10: a configured `maxSizeRatio` equal to `0` (the falsy rational) is
silently replaced by the default `2`, exactly as when the option is
absent, so a configured ratio of `0` behaves identically to an
unspecified ratio. -/
theorem c10_zero_ratio_uses_default :
    resolveMaxSizeRatio (some 0) = 2 ∧
    resolveMaxSizeRatio none = 2 ∧
    resolveMaxSizeRatio (some 0) = resolveMaxSizeRatio none := by
  refine ⟨?_, rfl, ?_⟩ <;> simp [resolveMaxSizeRatio]

end SvgSize
